import Mathlib

/-!
Verification of the EstimatePro tracking server (`src/server.js`).

The development shallowly embeds the server's data model and the mutating
operations of its JSON-file store: `recordView` (with its first-view gate and
the 10,000-entry cap on the views list), `storeInAppNotification`,
`sendPushNotification` / `sendEmailNotification` (with their per-channel
try/catch), `saveDB`'s single-flight write coalescing, `loadDB`'s corrupt-file
fallback, the registration endpoints, the notification read endpoints, and the
view-statistics query.

JavaScript values are embedded as follows: ISO timestamp strings become `Nat`
milliseconds (the code only compares them through `new Date(...)`, which is
order-isomorphic); nullable/undefined strings become `Option String`; the
`db.estimates` object (keyed by trackingId, insertion-ordered) becomes an
association list `List (String × Estimate)`; exceptions thrown by the push and
mail transports become `Except String Unit` results supplied by an abstract
channel environment.
-/

set_option maxHeartbeats 1000000

namespace EstimateTracking

/-- Request metadata extracted by the transport layer: `getClientIP req`,
`req.headers['user-agent']`, `req.headers['referer']`. -/
structure ReqMeta where
  ip : Option String
  userAgent : Option String
  referer : Option String
deriving Repr, DecidableEq

/-- A View record as built in `recordView` (server.js:657-664). -/
structure View where
  id : Nat
  tracking_id : String
  viewed_at : Nat
  ip_address : Option String
  user_agent : Option String
  referer : Option String
deriving Repr, DecidableEq

/-- An Estimate record (server.js:647-650 stub form, 860-867 full form). -/
structure Estimate where
  tracking_id : String
  title : Option String := none
  customerName : Option String := none
  customerEmail : Option String := none
  total : Option Int := none
  created_at : Nat
deriving Repr, DecidableEq

/-- A Device record (server.js:820-825). -/
structure Device where
  token : String
  platform : String
  bundleId : Option String
  registeredAt : Nat
deriving Repr, DecidableEq

/-- The Contractor singleton (server.js:840-845). -/
structure Contractor where
  email : String
  name : Option String
  companyName : Option String
  registeredAt : Nat
deriving Repr, DecidableEq

/-- An in-app Notification record (server.js:622-630). -/
structure Notification where
  id : String
  trackingId : String
  estimateTitle : String
  customerName : Option String
  message : String
  viewedAt : Nat
  isRead : Bool
deriving Repr, DecidableEq

/-- The in-memory store `db` with its five collections (server.js:358-364). -/
structure DB where
  estimates : List (String × Estimate)
  views : List View
  devices : List Device
  notifications : List Notification
  contractor : Option Contractor
deriving Repr, DecidableEq

/-- The empty initial state returned by `loadDB` on failure (server.js:358-364). -/
def emptyDB : DB := ⟨[], [], [], [], none⟩

/-- JavaScript `s || default` for a possibly null/undefined string: the empty
string is falsy. -/
def orDefault (o : Option String) (d : String) : String :=
  match o with
  | some s => if s.isEmpty then d else s
  | none => d

/-- JavaScript `s || null` for a possibly null/undefined string. -/
def orNone (o : Option String) : Option String :=
  match o with
  | some s => if s.isEmpty then none else some s
  | none => none

/-- JavaScript `n || null` for a possibly null/undefined number: `0` is falsy. -/
def orNoneInt (o : Option Int) : Option Int :=
  match o with
  | some n => if n = 0 then none else some n
  | none => none

/-- JavaScript falsiness of a possibly null/undefined string
(`!email`, `!deviceToken`). -/
def falsyStr : Option String → Bool
  | none => true
  | some s => s.isEmpty

/- ============================================
   Durable Store: loadDB and the flush coalescing of saveDB
   ============================================ -/

/-- What the file system yields for `DB_FILE` at startup: `fs.existsSync`
false, `fs.readFileSync` throwing, or the file's contents. -/
inductive FileState
  | absent
  | unreadable
  | content (s : String)

/-- The shape of a parsed persisted document: old files may lack the
`devices` / `notifications` / `contractor` fields (server.js:391-393
repairs them after load). -/
structure LoadedDB where
  estimates : List (String × Estimate)
  views : List View
  devices : Option (List Device)
  notifications : Option (List Notification)
  contractor : Option Contractor
deriving Repr, DecidableEq

/-- The five-field empty document that `loadDB` falls back to
(server.js:358-364). -/
def emptyLoaded : LoadedDB := ⟨[], [], some [], some [], none⟩

/-- `loadDB` (server.js:349-365). `parse` embeds `JSON.parse`, whose throw is
the `.error` case. The surrounding try/catch turns every failure — absent
file, unreadable file, corrupt contents — into the empty five-field document;
the catch only logs, so `loadDB`'s type is total: no error reaches the caller. -/
def loadDB (fs : FileState) (parse : String → Except String LoadedDB) : LoadedDB :=
  match fs with
  | .absent => emptyLoaded
  | .unreadable => emptyLoaded
  | .content s =>
      match parse s with
      | .ok d => d
      | .error _ => emptyLoaded

/-- The post-load fixups `if (!db.devices) db.devices = []` etc.
(server.js:391-393), yielding the working store. -/
def ensureDBFields (l : LoadedDB) : DB :=
  { estimates := l.estimates, views := l.views,
    devices := l.devices.getD [], notifications := l.notifications.getD [],
    contractor := l.contractor }

/-- The flush bookkeeping of `saveDB` (server.js:367-386): the two module
flags plus model-level counters. `inFlight` counts file writes currently
outstanding, `writesStarted` counts writes ever begun. -/
structure FlushState where
  writeInProgress : Bool
  writePending : Bool
  inFlight : Nat
  writesStarted : Nat
deriving Repr, DecidableEq

/-- Initial flush bookkeeping (server.js:367-368). -/
def initFlush : FlushState := ⟨false, false, 0, 0⟩

/-- The two points where control enters the flush logic: a call to `saveDB`,
and the completion of the awaited `fs.promises.writeFile`. -/
inductive FlushEv
  | request
  | complete
deriving Repr, DecidableEq

/-- One step of the flush state machine.
`request` is the entry of `saveDB` (server.js:370-375): if a write is in
progress only the pending flag is set, otherwise a write begins.
`complete` is the continuation after the awaited write (server.js:381-385):
the flag is cleared, and if a request arrived meanwhile, the recursive
`saveDB()` call immediately begins exactly one new write (the old write ends
and the new one starts, so `inFlight` is unchanged in that branch). -/
def flushStep (s : FlushState) : FlushEv → FlushState
  | .request =>
      if s.writeInProgress then { s with writePending := true }
      else { s with writeInProgress := true, inFlight := s.inFlight + 1,
                    writesStarted := s.writesStarted + 1 }
  | .complete =>
      if s.writeInProgress then
        if s.writePending then
          { s with writePending := false, writesStarted := s.writesStarted + 1 }
        else { s with writeInProgress := false, inFlight := s.inFlight - 1 }
      else s

/-- Run a schedule of flush events from the initial state. -/
def runFlush (evs : List FlushEv) : FlushState := evs.foldl flushStep initFlush

/-- The bookkeeping invariant of the flush machine: a write is in flight
exactly when the `writeInProgress` flag says so. -/
def flushInv (s : FlushState) : Prop :=
  s.inFlight = if s.writeInProgress then 1 else 0

/- ============================================
   Notification channels (apnProvider / emailTransporter ports)
   ============================================ -/

/-- The two external transports. `none` = not configured (the `!apnProvider` /
`!emailTransporter` guards); a configured transport maps a device token or a
mail address to a send result, `.error` standing for a thrown exception. -/
structure Channels where
  push : Option (String → Except String Unit)
  email : Option (String → Except String Unit)

/-- The channel environment used where channel outcomes are irrelevant. -/
def noChannels : Channels := ⟨none, none⟩

/-- `sendPushNotification` (server.js:524-555): early return when the provider
is missing or no device is registered; otherwise one send per registered
device, each wrapped in its own try/catch (server.js:544-553), so a failure
for one device never stops the loop. The result lists every attempted
(token, delivered?) pair. -/
def sendPushNotification (ch : Channels) (db : DB) : List (String × Bool) :=
  match ch.push with
  | none => []
  | some send =>
      if db.devices.length == 0 then []
      else db.devices.map (fun d =>
        match send d.token with
        | Except.ok _ => (d.token, true)
        | Except.error _ => (d.token, false))

/-- The `!emailTransporter || !db.contractor?.email` guard (server.js:558). -/
def emailTarget (db : DB) : Option String :=
  match db.contractor with
  | none => none
  | some c => if c.email.isEmpty then none else some c.email

/-- `sendEmailNotification` (server.js:557-619): early return when the
transporter is missing or no contractor email is registered; otherwise one
send wrapped in try/catch (server.js:613-618). `none` = not attempted,
`some b` = attempted with outcome `b`. -/
def sendEmailNotification (ch : Channels) (db : DB) : Option Bool :=
  match ch.email with
  | none => none
  | some send =>
      match emailTarget db with
      | none => none
      | some addr =>
          match send addr with
          | Except.ok _ => some true
          | Except.error _ => some false

/-- Cap on the notifications list (server.js:635). -/
def MAX_NOTIFICATIONS : Nat := 100

/-- The Notification record built in `storeInAppNotification`
(server.js:622-630). -/
def mkNotification (trackingId : String) (est : Estimate) (now : Nat) : Notification :=
  { id := "notif_" ++ toString now,
    trackingId := trackingId,
    estimateTitle := orDefault est.title ("Untitled Estimate"),
    customerName := orNone est.customerName,
    message := "Your estimate was viewed",
    viewedAt := now,
    isRead := false }

/-- `storeInAppNotification` (server.js:621-641): prepend the new
notification, keep only the newest 100. -/
def storeInAppNotification (trackingId : String) (est : Estimate) (now : Nat) (db : DB) : DB :=
  let ns := mkNotification trackingId est now :: db.notifications
  let ns := if ns.length > MAX_NOTIFICATIONS then ns.take MAX_NOTIFICATIONS else ns
  { db with notifications := ns }

/- ============================================
   Event Recorder: recordView
   ============================================ -/

/-- Cap on the views list (server.js:668). -/
def MAX_VIEWS : Nat := 10000

/-- The View record built in `recordView` (server.js:657-664); `len` is
`db.views.length` at build time. -/
def mkView (trackingId : String) (meta : ReqMeta) (now : Nat) (len : Nat) : View :=
  { id := len + 1, tracking_id := trackingId, viewed_at := now,
    ip_address := meta.ip, user_agent := orNone meta.userAgent,
    referer := orNone meta.referer }

/-- `db.views.slice(-MAX_VIEWS)` under the length guard (server.js:669-671). -/
def capViews (l : List View) : List View :=
  if l.length > MAX_VIEWS then l.drop (l.length - MAX_VIEWS) else l

/-- `db.views.some(v => v.tracking_id === trackingId)` (server.js:654). -/
def hasView (db : DB) (t : String) : Bool :=
  db.views.any (fun v => v.tracking_id == t)

/-- The minimal Estimate stub created on first reference (server.js:647-650). -/
def stubEstimate (t : String) (now : Nat) : Estimate :=
  { tracking_id := t, created_at := now }

/-- The property names every plain JavaScript object (`{}` literal or
`JSON.parse` result) inherits from `Object.prototype`, plus the `__proto__`
accessor. For these names `db.estimates[t]` yields the inherited function or
prototype object — truthy — even though no estimate was ever stored. -/
def protoKeys : List String :=
  ["constructor", "hasOwnProperty", "isPrototypeOf", "propertyIsEnumerable",
   "toLocaleString", "toString", "valueOf", "__defineGetter__",
   "__defineSetter__", "__lookupGetter__", "__lookupSetter__", "__proto__"]

/-- Truthiness of the property read `db.estimates[t]`: an own key (stored
estimate objects are always truthy) or a name inherited from
`Object.prototype` through the prototype chain. -/
def estimatesTruthy (es : List (String × Estimate)) (t : String) : Bool :=
  (es.lookup t).isSome || protoKeys.contains t

/-- `if (!db.estimates[trackingId]) db.estimates[trackingId] = {...}`
(server.js:646-651). The guard is a JavaScript property read, so for a
prototype-inherited name such as "constructor" it is truthy and the stub is
NOT created. -/
def ensureEstimate (t : String) (now : Nat) (db : DB) : DB :=
  if estimatesTruthy db.estimates t then db
  else { db with estimates := db.estimates ++ [(t, stubEstimate t now)] }

/-- What the notification block of `recordView` did (server.js:676-680). -/
structure DispatchReport where
  inApp : Bool
  pushAttempts : List (String × Bool)
  emailAttempt : Option Bool
deriving Repr, DecidableEq

/-- Everything a `recordView` call produces: the new store, the first-view
flag, the View record it created, and the dispatch report. -/
structure RecordResult where
  db : DB
  isFirstView : Bool
  view : View
  report : DispatchReport

/-- `recordView` (server.js:644-681): ensure the Estimate exists, compute
`isFirstView` from the views present before this call's own insertion, append
the new View, enforce the 10,000 cap, and — only on a first view — store the
in-app notification and attempt the push and email channels. -/
def recordView (ch : Channels) (t : String) (meta : ReqMeta) (now : Nat) (db : DB) :
    RecordResult :=
  let db1 := ensureEstimate t now db
  let estimate := (db1.estimates.lookup t).getD (stubEstimate t now)
  let isFirstView := !(hasView db1 t)
  let view := mkView t meta now db1.views.length
  let db2 := { db1 with views := capViews (db1.views ++ [view]) }
  if isFirstView then
    let db3 := storeInAppNotification t estimate now db2
    { db := db3, isFirstView := true, view := view,
      report := { inApp := true, pushAttempts := sendPushNotification ch db3,
                  emailAttempt := sendEmailNotification ch db3 } }
  else
    { db := db2, isFirstView := false, view := view,
      report := { inApp := false, pushAttempts := [], emailAttempt := none } }

/- ============================================
   Registration and notification-read endpoints
   ============================================ -/

/-- HTTP outcomes the handlers distinguish. -/
inductive Resp
  | ok (msg : String)
  | badRequest (msg : String)
  | notFound (msg : String)
deriving Repr, DecidableEq

/-- Body of POST /api/device/register. -/
structure DeviceBody where
  deviceToken : Option String
  platform : Option String
  bundleId : Option String
deriving Repr, DecidableEq

/-- POST /api/device/register (server.js:809-829): reject a missing token,
otherwise upsert by token. -/
def registerDevice (body : DeviceBody) (now : Nat) (db : DB) : DB × Resp :=
  if falsyStr body.deviceToken then (db, Resp.badRequest ("deviceToken required"))
  else
    let tok := body.deviceToken.getD ("")
    let devices := db.devices.filter (fun d => d.token != tok)
    let devices := devices ++
      [{ token := tok, platform := orDefault body.platform ("ios"),
         bundleId := body.bundleId, registeredAt := now }]
    ({ db with devices := devices }, Resp.ok ("Device registered for push notifications"))

/-- Body of POST /api/contractor/register. -/
structure ContractorBody where
  email : Option String
  name : Option String
  companyName : Option String
deriving Repr, DecidableEq

/-- A character matched by `[^\s@]` in the email pattern (server.js:835). -/
def nonSpecialChar (c : Char) : Bool := !c.isWhitespace && c != '@'

/-- The test `/^[^\s@]+@[^\s@]+\.[^\s@]+$/.test(email)` (server.js:835).
An anchored match is: exactly one `@`; a nonempty local part and a nonempty
domain of `[^\s@]` characters; and a `.` inside the domain with at least one
character on each side (the regex engine may pick any such dot, so existence
of a dot at a domain position other than the first or last is equivalent). -/
def emailRegexTest (s : String) : Bool :=
  match s.data.splitOn '@' with
  | [l, d] =>
      !l.isEmpty && l.all nonSpecialChar && !d.isEmpty && d.all nonSpecialChar &&
        ((d.drop 1).dropLast.contains '.')
  | _ => false

/-- POST /api/contractor/register (server.js:832-849): reject a missing or
non-matching email before touching the store, otherwise replace the
contractor singleton wholesale. -/
def registerContractor (body : ContractorBody) (now : Nat) (db : DB) : DB × Resp :=
  if falsyStr body.email || !emailRegexTest (body.email.getD ("")) then
    (db, Resp.badRequest ("Valid email address is required"))
  else
    let c : Contractor :=
      { email := body.email.getD (""), name := orNone body.name,
        companyName := orNone body.companyName, registeredAt := now }
    ({ db with contractor := some c },
     Resp.ok ("Contractor registered for email notifications"))

/-- Body of POST /api/register/:trackingId. -/
structure EstimateBody where
  title : Option String
  customerName : Option String
  customerEmail : Option String
  total : Option Int
deriving Repr, DecidableEq

/-- `db.estimates[trackingId] = {...}`: replace when the own key exists,
append otherwise (JavaScript objects keep insertion order). Assigning to
`"__proto__"` sets the object's prototype instead and stores no own key, so
no entry is recorded; the poisoning of later property reads that such an
assignment causes lies outside the fragment covered by the amended C9
invariant, whose runs exclude prototype names. -/
def setEstimate (es : List (String × Estimate)) (t : String) (e : Estimate) :
    List (String × Estimate) :=
  if t == "__proto__" then es
  else if (es.lookup t).isSome then es.map (fun p => if p.1 == t then (t, e) else p)
  else es ++ [(t, e)]

/-- POST /api/register/:trackingId (server.js:856-871). -/
def registerEstimate (t : String) (body : EstimateBody) (now : Nat) (db : DB) : DB :=
  let e : Estimate :=
    { tracking_id := t, title := orNone body.title,
      customerName := orNone body.customerName,
      customerEmail := orNone body.customerEmail,
      total := orNoneInt body.total, created_at := now }
  { db with estimates := setEstimate db.estimates t e }

/-- In-place `notification.isRead = true` on the first notification whose id
matches, leaving every other element untouched (server.js:885-888). -/
def markReadList : List Notification → String → List Notification
  | [], _ => []
  | n :: rest, nid =>
      if n.id == nid then { n with isRead := true } :: rest
      else n :: markReadList rest nid

/-- POST /api/notifications/:notificationId/read (server.js:883-894):
`find` the notification; 404 and no mutation when absent. -/
def markNotificationRead (nid : String) (db : DB) : DB × Resp :=
  match db.notifications.find? (fun n => n.id == nid) with
  | some _ => ({ db with notifications := markReadList db.notifications nid }, Resp.ok (""))
  | none => (db, Resp.notFound ("Notification not found"))

/-- POST /api/notifications/read-all (server.js:897-901). -/
def markAllRead (db : DB) : DB :=
  { db with notifications := db.notifications.map (fun n => { n with isRead := true }) }

/- ============================================
   Query Layer: view statistics
   ============================================ -/

/-- The comparator `(a, b) => new Date(b.viewed_at) - new Date(a.viewed_at)`:
descending by timestamp. -/
def viewLe (a b : View) : Prop := b.viewed_at ≤ a.viewed_at

instance : DecidableRel viewLe := fun a b => Nat.decLe b.viewed_at a.viewed_at

instance : IsTotal View viewLe := ⟨fun a b => Nat.le_total b.viewed_at a.viewed_at⟩

instance : IsTrans View viewLe :=
  ⟨fun _ _ _ hab hbc => Nat.le_trans hbc hab⟩

/-- One entry of the stats projection (server.js:916-920). -/
structure ViewStatsEntry where
  timestamp : Nat
  ip_hash : String
  userAgent : Option String
deriving Repr, DecidableEq

/-- The stats response (server.js:912-921). -/
structure ViewStats where
  trackingId : String
  viewCount : Nat
  lastViewedAt : Option Nat
  views : List ViewStatsEntry
deriving Repr, DecidableEq

/-- `crypto.createHash('sha256').update(ip || '').digest('hex').substring(0, 8)`
(server.js:918), with the hash function an abstract port. -/
def ipHashField (hash : String → String) (ip : Option String) : String :=
  (hash (ip.getD (""))).take 8

/-- GET /api/views/:trackingId (server.js:907-922). -/
def getViewStats (hash : String → String) (trackingId : String) (db : DB) : ViewStats :=
  let trackingViews := db.views.filter (fun v => v.tracking_id == trackingId)
  let sortedViews := trackingViews.insertionSort viewLe
  { trackingId := trackingId,
    viewCount := trackingViews.length,
    lastViewedAt := sortedViews.head?.map View.viewed_at,
    views := (sortedViews.take 50).map (fun v =>
      { timestamp := v.viewed_at, ip_hash := ipHashField hash v.ip_address,
        userAgent := v.user_agent }) }

/- ============================================
   Operation algebra: runs of store mutations
   ============================================ -/

/-- One call to `recordView`. -/
structure RVCall where
  tid : String
  meta : ReqMeta
  now : Nat
deriving Repr, DecidableEq

/-- The observable trace of one `recordView` call. -/
structure RVStep where
  tid : String
  isFirstView : Bool
  view : View
deriving Repr, DecidableEq

/-- Run a sequence of `recordView` calls, collecting each call's trace. -/
def runRecord (ch : Channels) : List RVCall → DB → DB × List RVStep
  | [], db => (db, [])
  | c :: cs, db =>
      let r := recordView ch c.tid c.meta c.now db
      let rest := runRecord ch cs r.db
      (rest.1, ⟨c.tid, r.isFirstView, r.view⟩ :: rest.2)

/-- The View records created during a run, in insertion order. -/
def insertedViews (trace : List RVStep) : List View := trace.map RVStep.view

/-- Number of trace steps for `t` that came back with `isFirstView = true`,
i.e. the number of notification dispatches for `t`. -/
def firstViewCount (trace : List RVStep) (t : String) : Nat :=
  (trace.filter (fun s => s.tid == t && s.isFirstView)).length

/-- Every mutating operation of the store. -/
inductive Op
  | record (t : String) (meta : ReqMeta) (now : Nat)
  | regEstimate (t : String) (body : EstimateBody) (now : Nat)
  | regDevice (body : DeviceBody) (now : Nat)
  | regContractor (body : ContractorBody) (now : Nat)
  | markRead (nid : String)
  | markAll

/-- Apply one operation to the store. -/
def applyOp (ch : Channels) (db : DB) : Op → DB
  | .record t m now => (recordView ch t m now db).db
  | .regEstimate t b now => registerEstimate t b now db
  | .regDevice b now => (registerDevice b now db).1
  | .regContractor b now => (registerContractor b now db).1
  | .markRead nid => (markNotificationRead nid db).1
  | .markAll => markAllRead db

/-- Run a sequence of operations from the empty store. -/
def runOps (ch : Channels) (ops : List Op) : DB := ops.foldl (applyOp ch) emptyDB

/-- An operation whose trackingId (when it has one) is not an inherited
`Object.prototype` property name, so the code's property reads and writes on
`db.estimates` behave as plain own-key map operations. -/
def ordinaryOp : Op → Bool
  | .record t _ _ => !(protoKeys.contains t)
  | .regEstimate t _ _ => !(protoKeys.contains t)
  | _ => true

/-- The last `n` elements of a list. -/
def lastN (n : Nat) (l : List α) : List α := l.drop (l.length - n)

/- ============================================
   Concrete sample data used by witnesses
   ============================================ -/

/-- A sample request metadata value. -/
def meta0 : ReqMeta := ⟨some "203.0.113.7", some "Mozilla/5.0", none⟩

/-- Two sample stored notifications. -/
def notifA : Notification := ⟨"notif_1", "a", "T", none, "m", 1, false⟩

/-- Second sample stored notification. -/
def notifB : Notification := ⟨"notif_2", "b", "U", none, "m", 2, false⟩

/-- A sample store holding the two sample notifications. -/
def dbNotif : DB := ⟨[], [], [], [notifA, notifB], none⟩

/-- A sample recordView call for trackingId "a". -/
def callA : RVCall := ⟨"a", meta0, 0⟩

/-- A sample recordView call for trackingId "b". -/
def callB : RVCall := ⟨"b", meta0, 0⟩

/-- A sample recordView call for trackingId "c". -/
def callC : RVCall := ⟨"c", meta0, 0⟩

/-- A sample recordView call for trackingId "d". -/
def callD : RVCall := ⟨"d", meta0, 0⟩

/-- One view of "a", then 10,000 views of "b" (enough to evict the "a" view
through the cap), then "a" again. -/
def cexFirstViewOps : List RVCall := callA :: (List.replicate MAX_VIEWS callB ++ [callA])

/-- 10,000 views of "b" (filling the cap), then one view each of "c" and "d". -/
def cexIdOps : List RVCall := List.replicate MAX_VIEWS callB ++ [callC, callD]

/-- A store whose views list is already at the 10,000-entry cap. -/
def dbFull : DB := ⟨[], List.replicate MAX_VIEWS (mkView "b" meta0 0 0), [], [], none⟩

/- ============================================
   Basic lemmas about the store operations
   ============================================ -/

theorem ensureEstimate_views (t : String) (now : Nat) (db : DB) :
    (ensureEstimate t now db).views = db.views := by
  unfold ensureEstimate; split <;> rfl

theorem ensureEstimate_devices (t : String) (now : Nat) (db : DB) :
    (ensureEstimate t now db).devices = db.devices := by
  unfold ensureEstimate; split <;> rfl

theorem ensureEstimate_contractor (t : String) (now : Nat) (db : DB) :
    (ensureEstimate t now db).contractor = db.contractor := by
  unfold ensureEstimate; split <;> rfl

theorem ensureEstimate_notifications (t : String) (now : Nat) (db : DB) :
    (ensureEstimate t now db).notifications = db.notifications := by
  unfold ensureEstimate; split <;> rfl

theorem storeInAppNotification_views (t : String) (est : Estimate) (now : Nat) (db : DB) :
    (storeInAppNotification t est now db).views = db.views := rfl

theorem hasView_ensureEstimate (t u : String) (now : Nat) (db : DB) :
    hasView (ensureEstimate t now db) u = hasView db u := by
  simp [hasView, ensureEstimate_views]

theorem recordView_views (ch : Channels) (t : String) (m : ReqMeta) (now : Nat) (db : DB) :
    (recordView ch t m now db).db.views =
      capViews (db.views ++ [mkView t m now db.views.length]) := by
  simp only [recordView]
  split <;> simp [storeInAppNotification, ensureEstimate_views]

theorem recordView_isFirstView (ch : Channels) (t : String) (m : ReqMeta) (now : Nat)
    (db : DB) :
    (recordView ch t m now db).isFirstView = !(hasView db t) := by
  simp only [recordView]
  split <;> rename_i h <;> rw [hasView_ensureEstimate] at h <;> simp [h]

theorem recordView_view (ch : Channels) (t : String) (m : ReqMeta) (now : Nat) (db : DB) :
    (recordView ch t m now db).view = mkView t m now db.views.length := by
  simp only [recordView]
  split <;> simp [ensureEstimate_views]

/- ============================================
   Claim C4: saveDB flush coalescing
   ============================================ -/

theorem flushStep_inv {s : FlushState} (h : flushInv s) (e : FlushEv) :
    flushInv (flushStep s e) := by
  unfold flushInv at h ⊢
  cases e <;> by_cases hw : s.writeInProgress <;> by_cases hp : s.writePending <;>
    simp [flushStep, hw, hp] at h ⊢ <;> omega

theorem foldl_flushStep_inv (evs : List FlushEv) :
    ∀ s : FlushState, flushInv s → flushInv (evs.foldl flushStep s) := by
  induction evs with
  | nil => intro s h; exact h
  | cons e es ih => intro s h; exact ih _ (flushStep_inv h e)

theorem runFlush_inv (evs : List FlushEv) : flushInv (runFlush evs) :=
  foldl_flushStep_inv evs initFlush (by unfold flushInv initFlush; simp)

/-- Claim C4: the flush logic of `saveDB` never has more than one file write
in flight under any interleaving of flush requests and write completions; a
request arriving while a write is in flight only sets the single pending flag
(so repeated requests coalesce: a second such request changes nothing more);
and when an in-flight write completes with the pending flag set, exactly one
new write starts immediately. -/
theorem saveDB_single_flight (evs : List FlushEv) (s : FlushState)
    (hw : s.writeInProgress = true) (hp : s.writePending = true) :
    (runFlush evs).inFlight ≤ 1 ∧
    flushStep s FlushEv.request = { s with writePending := true } ∧
    flushStep (flushStep s FlushEv.request) FlushEv.request = flushStep s FlushEv.request ∧
    ((flushStep s FlushEv.complete).writesStarted = s.writesStarted + 1 ∧
     (flushStep s FlushEv.complete).writeInProgress = true ∧
     (flushStep s FlushEv.complete).inFlight = s.inFlight) := by
  refine ⟨?_, ?_, ?_, ?_⟩
  · have h := runFlush_inv evs
    unfold flushInv at h
    rw [h]; split <;> omega
  · simp [flushStep, hw]
  · simp [flushStep, hw]
  · simp [flushStep, hw, hp]

/-- Witness for C4 at a concrete schedule and state. -/
theorem saveDB_single_flight_witness :
    (⟨true, true, 1, 5⟩ : FlushState).writeInProgress = true ∧
    (⟨true, true, 1, 5⟩ : FlushState).writePending = true ∧
    ((runFlush [FlushEv.request, FlushEv.request, FlushEv.complete]).inFlight ≤ 1 ∧
     flushStep ⟨true, true, 1, 5⟩ FlushEv.request =
       { (⟨true, true, 1, 5⟩ : FlushState) with writePending := true } ∧
     flushStep (flushStep ⟨true, true, 1, 5⟩ FlushEv.request) FlushEv.request =
       flushStep ⟨true, true, 1, 5⟩ FlushEv.request ∧
     ((flushStep ⟨true, true, 1, 5⟩ FlushEv.complete).writesStarted = 5 + 1 ∧
      (flushStep ⟨true, true, 1, 5⟩ FlushEv.complete).writeInProgress = true ∧
      (flushStep ⟨true, true, 1, 5⟩ FlushEv.complete).inFlight = 1)) :=
  ⟨rfl, rfl, saveDB_single_flight [FlushEv.request, FlushEv.request, FlushEv.complete]
    ⟨true, true, 1, 5⟩ rfl rfl⟩

/- ============================================
   Claim C5: loadDB falls back to the empty store
   ============================================ -/

/-- Claim C5: on startup, an absent, unreadable, or corrupt persisted file
never raises to the caller (`loadDB` is total); after the post-load fixups the
resulting store has empty collections for all five fields. -/
theorem loadDB_failure_empty (parse : String → Except String LoadedDB)
    (s e : String) (hc : parse s = Except.error e) :
    ensureDBFields (loadDB FileState.absent parse) = emptyDB ∧
    ensureDBFields (loadDB FileState.unreadable parse) = emptyDB ∧
    ensureDBFields (loadDB (FileState.content s) parse) = emptyDB := by
  refine ⟨rfl, rfl, ?_⟩
  simp [loadDB, hc, ensureDBFields, emptyLoaded, emptyDB]

/-- Witness for C5 with a concretely corrupt file. -/
theorem loadDB_failure_empty_witness :
    (fun _ : String => (Except.error "Unexpected token" : Except String LoadedDB)) "corrupt-json"
        = Except.error "Unexpected token" ∧
    (ensureDBFields (loadDB FileState.absent
        (fun _ => Except.error "Unexpected token")) = emptyDB ∧
     ensureDBFields (loadDB FileState.unreadable
        (fun _ => Except.error "Unexpected token")) = emptyDB ∧
     ensureDBFields (loadDB (FileState.content "corrupt-json")
        (fun _ => Except.error "Unexpected token")) = emptyDB) :=
  ⟨rfl, loadDB_failure_empty (fun _ => Except.error "Unexpected token")
    "corrupt-json" "Unexpected token" rfl⟩

/- ============================================
   Claim C10: marking a notification read is atomic
   ============================================ -/

theorem markReadList_spec (pre post : List Notification) (n : Notification) (nid : String)
    (hpre : ∀ m ∈ pre, m.id ≠ nid) (hn : n.id = nid) :
    markReadList (pre ++ n :: post) nid = pre ++ { n with isRead := true } :: post := by
  induction pre with
  | nil => simp [markReadList, hn]
  | cons a as ih =>
      have ha : (a.id == nid) = false := by simpa using hpre a (by simp)
      simp only [List.cons_append, markReadList, ha, Bool.false_eq_true, if_false]
      exact congrArg (List.cons a) (ih (fun m hm => hpre m (by simp [hm])))

theorem find?_id_eq_some (pre post : List Notification) (n : Notification) (nid : String)
    (hpre : ∀ m ∈ pre, m.id ≠ nid) (hn : n.id = nid) :
    (pre ++ n :: post).find? (fun m => m.id == nid) = some n := by
  induction pre with
  | nil => simp [List.find?, hn]
  | cons a as ih =>
      have ha : (a.id == nid) = false := by simpa using hpre a (by simp)
      simp only [List.cons_append, List.find?, ha]
      exact ih (fun m hm => hpre m (by simp [hm]))

/-- Claim C10: mark-read is atomic at the interface: an absent notificationId
yields 404 and leaves the whole store unchanged; a present notificationId
flips exactly the first matching notification's `isRead` to true and changes
nothing else in any collection. -/
theorem markRead_atomic (db : DB) (nid : String) :
    ((∀ n ∈ db.notifications, n.id ≠ nid) →
      markNotificationRead nid db = (db, Resp.notFound ("Notification not found"))) ∧
    (∀ pre post n, db.notifications = pre ++ n :: post →
      (∀ m ∈ pre, m.id ≠ nid) → n.id = nid →
      markNotificationRead nid db =
        ({ db with notifications := pre ++ { n with isRead := true } :: post },
         Resp.ok (""))) := by
  constructor
  · intro h
    unfold markNotificationRead
    have : db.notifications.find? (fun m => m.id == nid) = none := by
      rw [List.find?_eq_none]
      intro x hx
      simpa using h x hx
    rw [this]
  · intro pre post n hns hpre hn
    unfold markNotificationRead
    rw [hns, find?_id_eq_some pre post n nid hpre hn,
        markReadList_spec pre post n nid hpre hn]

/-- Witness for C10 on a concrete two-notification store: a missing id leaves
the store untouched, and marking `notif_2` read changes only that record. -/
theorem markRead_atomic_witness :
    markNotificationRead "notif_9" dbNotif =
      (dbNotif, Resp.notFound ("Notification not found")) ∧
    markNotificationRead "notif_2" dbNotif =
      ({ dbNotif with notifications := [notifA] ++ { notifB with isRead := true } :: [] },
       Resp.ok ("")) :=
  ⟨(markRead_atomic dbNotif "notif_9").1 (by decide),
   (markRead_atomic dbNotif "notif_2").2 [notifA] [] notifB (by decide) (by decide) (by decide)⟩

/- ============================================
   Claim C6: registration input validation
   ============================================ -/

/-- Claim C6: invalid registration input is rejected synchronously with a
validation failure and leaves the store completely unchanged: a missing or
non-matching contractor email (such as "not-an-email") stores nothing, a
well-formed one (such as "a@b.com") is accepted and stored wholesale, and a
missing deviceToken stores nothing. -/
theorem registration_validation (db : DB) (now : Nat) (body : ContractorBody)
    (dbody : DeviceBody) (nm cn : Option String)
    (hbad : falsyStr body.email = true ∨ emailRegexTest (body.email.getD ("")) = false)
    (hdev : falsyStr dbody.deviceToken = true) :
    registerContractor body now db =
      (db, Resp.badRequest ("Valid email address is required")) ∧
    emailRegexTest ("not-an-email") = false ∧
    emailRegexTest ("a@b.com") = true ∧
    registerContractor ⟨some "a@b.com", nm, cn⟩ now db =
      ({ db with contractor := some ⟨"a@b.com", orNone nm, orNone cn, now⟩ },
       Resp.ok ("Contractor registered for email notifications")) ∧
    registerDevice dbody now db = (db, Resp.badRequest ("deviceToken required")) := by
  refine ⟨?_, by decide, by decide, ?_, ?_⟩
  · have hcond : (falsyStr body.email || !emailRegexTest (body.email.getD (""))) = true := by
      rcases hbad with h | h <;> simp [h]
    simp [registerContractor, hcond]
  · simp only [registerContractor]
    rw [if_neg (by decide)]
    rfl
  · simp [registerDevice, hdev]

/-- Witness for C6: "not-an-email" is rejected, "a@b.com" is accepted, a
missing device token is rejected, all on the empty store. -/
theorem registration_validation_witness :
    (falsyStr (some "not-an-email") = true ∨
      emailRegexTest ((some "not-an-email" : Option String).getD ("")) = false) ∧
    falsyStr (none : Option String) = true ∧
    (registerContractor ⟨some "not-an-email", none, none⟩ 7 emptyDB =
       (emptyDB, Resp.badRequest ("Valid email address is required")) ∧
     emailRegexTest ("not-an-email") = false ∧
     emailRegexTest ("a@b.com") = true ∧
     registerContractor ⟨some "a@b.com", none, none⟩ 7 emptyDB =
       ({ emptyDB with contractor := some ⟨"a@b.com", orNone none, orNone none, 7⟩ },
        Resp.ok ("Contractor registered for email notifications")) ∧
     registerDevice ⟨none, none, none⟩ 7 emptyDB =
       (emptyDB, Resp.badRequest ("deviceToken required"))) :=
  ⟨Or.inr (by decide), by decide,
   registration_validation emptyDB 7 ⟨some "not-an-email", none, none⟩ ⟨none, none, none⟩
     none none (Or.inr (by decide)) (by decide)⟩

/- ============================================
   Claim C7: notification channel failures are isolated
   ============================================ -/

theorem recordView_devices (ch : Channels) (t : String) (m : ReqMeta) (now : Nat)
    (db : DB) : (recordView ch t m now db).db.devices = db.devices := by
  simp only [recordView]
  split <;> simp [storeInAppNotification, ensureEstimate_devices]

theorem recordView_contractor (ch : Channels) (t : String) (m : ReqMeta) (now : Nat)
    (db : DB) : (recordView ch t m now db).db.contractor = db.contractor := by
  simp only [recordView]
  split <;> simp [storeInAppNotification, ensureEstimate_contractor]

theorem recordView_db_channels (ch ch' : Channels) (t : String) (m : ReqMeta)
    (now : Nat) (db : DB) :
    (recordView ch t m now db).db = (recordView ch' t m now db).db := by
  simp only [recordView]
  split <;> rename_i h <;> simp [h]

theorem recordView_isFirstView_channels (ch ch' : Channels) (t : String) (m : ReqMeta)
    (now : Nat) (db : DB) :
    (recordView ch t m now db).isFirstView = (recordView ch' t m now db).isFirstView := by
  rw [recordView_isFirstView, recordView_isFirstView]

theorem recordView_inApp_channels (ch ch' : Channels) (t : String) (m : ReqMeta)
    (now : Nat) (db : DB) :
    (recordView ch t m now db).report.inApp = (recordView ch' t m now db).report.inApp := by
  simp only [recordView]
  split <;> rename_i h <;> simp [h]

theorem recordView_report_push (ch : Channels) (t : String) (m : ReqMeta) (now : Nat)
    (db : DB) (hfv : (recordView ch t m now db).isFirstView = true) :
    (recordView ch t m now db).report.pushAttempts =
      sendPushNotification ch (recordView ch t m now db).db := by
  revert hfv
  simp only [recordView]
  split <;> simp

theorem recordView_report_email (ch : Channels) (t : String) (m : ReqMeta) (now : Nat)
    (db : DB) (hfv : (recordView ch t m now db).isFirstView = true) :
    (recordView ch t m now db).report.emailAttempt =
      sendEmailNotification ch (recordView ch t m now db).db := by
  revert hfv
  simp only [recordView]
  split <;> simp

theorem sendPush_attempts_all_devices (send : String → Except String Unit)
    (e : Option (String → Except String Unit)) (db : DB) :
    (sendPushNotification ⟨some send, e⟩ db).map Prod.fst = db.devices.map Device.token := by
  simp only [sendPushNotification]
  by_cases h : db.devices.length == 0
  · rw [if_pos h]
    have : db.devices = [] := List.length_eq_zero.mp (by simpa using h)
    simp [this]
  · rw [if_neg h]
    rw [List.map_map]
    apply List.map_congr_left
    intro d _
    simp only [Function.comp_apply]
    cases hs : send d.token <;> simp [hs]

theorem sendEmail_attempted_iff (send : String → Except String Unit)
    (p : Option (String → Except String Unit)) (db : DB) :
    (sendEmailNotification ⟨p, some send⟩ db).isSome = (emailTarget db).isSome := by
  simp only [sendEmailNotification]
  cases he : emailTarget db with
  | none => rfl
  | some addr => cases hs : send addr <;> simp [hs]

theorem emailTarget_congr (db db' : DB) (h : db.contractor = db'.contractor) :
    emailTarget db = emailTarget db' := by
  unfold emailTarget
  rw [h]

/-- Claim C7: channel failures are isolated. Whatever the push and email
transports do — including throwing for every send — the resulting store, the
first-view flag and the in-app notification are unchanged; on a first-view
dispatch every registered device receives its own push attempt (a failure for
one device never suppresses the attempt for another), and the email channel is
attempted exactly when a contractor email is registered, regardless of push
outcomes. `recordView` is total, so no channel failure propagates to the
caller that recorded the view. -/
theorem notification_failure_isolation
    (pf pf' ef ef' : String → Except String Unit) (t : String) (m : ReqMeta)
    (now : Nat) (db : DB)
    (hfv : (recordView ⟨some pf, some ef⟩ t m now db).isFirstView = true) :
    ((recordView ⟨some pf, some ef⟩ t m now db).db =
       (recordView ⟨some pf', some ef'⟩ t m now db).db ∧
     (recordView ⟨some pf, some ef⟩ t m now db).isFirstView =
       (recordView ⟨some pf', some ef'⟩ t m now db).isFirstView ∧
     (recordView ⟨some pf, some ef⟩ t m now db).report.inApp =
       (recordView ⟨some pf', some ef'⟩ t m now db).report.inApp) ∧
    (recordView ⟨some pf, some ef⟩ t m now db).report.pushAttempts.map Prod.fst =
      db.devices.map Device.token ∧
    (recordView ⟨some pf, some ef⟩ t m now db).report.emailAttempt.isSome =
      (emailTarget db).isSome := by
  refine ⟨⟨recordView_db_channels _ _ t m now db,
           recordView_isFirstView_channels _ _ t m now db,
           recordView_inApp_channels _ _ t m now db⟩, ?_, ?_⟩
  · rw [recordView_report_push _ t m now db hfv]
    have h := sendPush_attempts_all_devices pf (some ef)
      (recordView ⟨some pf, some ef⟩ t m now db).db
    rw [h, recordView_devices]
  · rw [recordView_report_email _ t m now db hfv]
    rw [sendEmail_attempted_iff ef (some pf)]
    rw [emailTarget_congr _ db (recordView_contractor _ t m now db)]

/-- Witness for C7: a store with two devices and a contractor, a push
transport that throws for the first device, and an email transport that
always throws. -/
theorem notification_failure_isolation_witness :
    (recordView ⟨some (fun tok => if tok == "tokA" then Except.error "boom" else Except.ok ()),
        some (fun _ => Except.error "smtp down")⟩ "x" meta0 3
        ⟨[], [], [⟨"tokA", "ios", none, 1⟩, ⟨"tokB", "ios", none, 2⟩], [],
         some ⟨"c@d.com", none, none, 0⟩⟩).isFirstView = true ∧
    ((recordView ⟨some (fun tok => if tok == "tokA" then Except.error "boom" else Except.ok ()),
        some (fun _ => Except.error "smtp down")⟩ "x" meta0 3
        ⟨[], [], [⟨"tokA", "ios", none, 1⟩, ⟨"tokB", "ios", none, 2⟩], [],
         some ⟨"c@d.com", none, none, 0⟩⟩).report.pushAttempts.map Prod.fst =
      ([⟨"tokA", "ios", none, 1⟩, ⟨"tokB", "ios", none, 2⟩] : List Device).map Device.token ∧
     (recordView ⟨some (fun tok => if tok == "tokA" then Except.error "boom" else Except.ok ()),
        some (fun _ => Except.error "smtp down")⟩ "x" meta0 3
        ⟨[], [], [⟨"tokA", "ios", none, 1⟩, ⟨"tokB", "ios", none, 2⟩], [],
         some ⟨"c@d.com", none, none, 0⟩⟩).report.emailAttempt.isSome =
      (emailTarget ⟨[], [], [⟨"tokA", "ios", none, 1⟩, ⟨"tokB", "ios", none, 2⟩], [],
         some ⟨"c@d.com", none, none, 0⟩⟩).isSome) :=
  ⟨by decide,
   ⟨(notification_failure_isolation
      (fun tok => if tok == "tokA" then Except.error "boom" else Except.ok ())
      (fun _ => Except.ok ())
      (fun _ => Except.error "smtp down")
      (fun _ => Except.ok ())
      "x" meta0 3
      ⟨[], [], [⟨"tokA", "ios", none, 1⟩, ⟨"tokB", "ios", none, 2⟩], [],
       some ⟨"c@d.com", none, none, 0⟩⟩ (by decide)).2.1,
    (notification_failure_isolation
      (fun tok => if tok == "tokA" then Except.error "boom" else Except.ok ())
      (fun _ => Except.ok ())
      (fun _ => Except.error "smtp down")
      (fun _ => Except.ok ())
      "x" meta0 3
      ⟨[], [], [⟨"tokA", "ios", none, 1⟩, ⟨"tokB", "ios", none, 2⟩], [],
       some ⟨"c@d.com", none, none, 0⟩⟩ (by decide)).2.2⟩⟩

/- ============================================
   Runs of recordView: the views list is a sliding window
   ============================================ -/

theorem capViews_eq_lastN (l : List View) : capViews l = lastN MAX_VIEWS l := by
  unfold capViews lastN
  split
  · rfl
  · rename_i h
    have h0 : l.length - MAX_VIEWS = 0 := by omega
    rw [h0, List.drop_zero]

theorem lastN_length_le (n : Nat) (l : List α) : (lastN n l).length ≤ n := by
  unfold lastN
  rw [List.length_drop]
  omega

theorem lastN_of_length_le (n : Nat) (l : List α) (h : l.length ≤ n) : lastN n l = l := by
  unfold lastN
  have h0 : l.length - n = 0 := by omega
  rw [h0, List.drop_zero]

theorem lastN_absorb (n : Nat) (A B : List α) :
    lastN n (lastN n A ++ B) = lastN n (A ++ B) := by
  unfold lastN
  simp only [List.length_append, List.length_drop, List.drop_append_eq_append_drop,
    List.drop_drop]
  have h1 : A.length - n + (A.length - (A.length - n) + B.length - n) =
      A.length + B.length - n := by omega
  have h2 : A.length - (A.length - n) + B.length - n - (A.length - (A.length - n)) =
      A.length + B.length - n - A.length := by omega
  rw [h1, h2]

theorem runRecord_cons (ch : Channels) (c : RVCall) (cs : List RVCall) (db : DB) :
    runRecord ch (c :: cs) db =
      ((runRecord ch cs (recordView ch c.tid c.meta c.now db).db).1,
       ⟨c.tid, (recordView ch c.tid c.meta c.now db).isFirstView,
        (recordView ch c.tid c.meta c.now db).view⟩ ::
         (runRecord ch cs (recordView ch c.tid c.meta c.now db).db).2) := rfl

theorem runRecord_trace_length (ch : Channels) (ops : List RVCall) :
    ∀ db : DB, (runRecord ch ops db).2.length = ops.length := by
  induction ops with
  | nil => intro db; rfl
  | cons c cs ih =>
      intro db
      rw [runRecord_cons]
      simp [ih]

theorem runRecord_views (ch : Channels) (ops : List RVCall) :
    ∀ db : DB, db.views.length ≤ MAX_VIEWS →
      (runRecord ch ops db).1.views =
        lastN MAX_VIEWS (db.views ++ insertedViews (runRecord ch ops db).2) := by
  induction ops with
  | nil =>
      intro db h
      simp only [runRecord, insertedViews, List.map_nil, List.append_nil]
      exact (lastN_of_length_le _ _ h).symm
  | cons c cs ih =>
      intro db h
      rw [runRecord_cons]
      simp only [insertedViews, List.map_cons]
      have hv := recordView_views ch c.tid c.meta c.now db
      have hview := recordView_view ch c.tid c.meta c.now db
      have hlen : (recordView ch c.tid c.meta c.now db).db.views.length ≤ MAX_VIEWS := by
        rw [hv, capViews_eq_lastN]
        exact lastN_length_le _ _
      have := ih (recordView ch c.tid c.meta c.now db).db hlen
      rw [this, hv, capViews_eq_lastN, hview, lastN_absorb]
      rw [List.append_assoc]
      rfl

/-- Claim C3: after recording more than 10,000 views in total from the empty
store, the views collection has length exactly 10,000 and consists of
precisely the most recently inserted 10,000 View records, in insertion order,
the oldest discarded first — a single sliding window over global insertion
order, irrespective of trackingIds. -/
theorem views_cap_sliding_window (ch : Channels) (ops : List RVCall)
    (h : ops.length > MAX_VIEWS) :
    (insertedViews (runRecord ch ops emptyDB).2).length = ops.length ∧
    (runRecord ch ops emptyDB).1.views.length = MAX_VIEWS ∧
    (runRecord ch ops emptyDB).1.views =
      (insertedViews (runRecord ch ops emptyDB).2).drop (ops.length - MAX_VIEWS) := by
  have hins : (insertedViews (runRecord ch ops emptyDB).2).length = ops.length := by
    unfold insertedViews
    rw [List.length_map, runRecord_trace_length]
  have hviews := runRecord_views ch ops emptyDB (by simp [emptyDB])
  have hempty : emptyDB.views = ([] : List View) := rfl
  rw [hempty, List.nil_append] at hviews
  refine ⟨hins, ?_, ?_⟩
  · rw [hviews]
    unfold lastN
    rw [List.length_drop, hins]
    omega
  · rw [hviews]
    unfold lastN
    rw [hins]

/-- Witness for C3: a run of 10,001 recordView calls. -/
theorem views_cap_sliding_window_witness :
    (List.replicate (MAX_VIEWS + 1) (⟨"a", meta0, 0⟩ : RVCall)).length > MAX_VIEWS ∧
    ((insertedViews (runRecord noChannels
        (List.replicate (MAX_VIEWS + 1) ⟨"a", meta0, 0⟩) emptyDB).2).length =
      (List.replicate (MAX_VIEWS + 1) (⟨"a", meta0, 0⟩ : RVCall)).length ∧
     (runRecord noChannels
        (List.replicate (MAX_VIEWS + 1) ⟨"a", meta0, 0⟩) emptyDB).1.views.length =
       MAX_VIEWS ∧
     (runRecord noChannels
        (List.replicate (MAX_VIEWS + 1) ⟨"a", meta0, 0⟩) emptyDB).1.views =
       (insertedViews (runRecord noChannels
          (List.replicate (MAX_VIEWS + 1) ⟨"a", meta0, 0⟩) emptyDB).2).drop
         ((List.replicate (MAX_VIEWS + 1) (⟨"a", meta0, 0⟩ : RVCall)).length - MAX_VIEWS)) :=
  ⟨by simp, views_cap_sliding_window noChannels
    (List.replicate (MAX_VIEWS + 1) ⟨"a", meta0, 0⟩) (by simp)⟩

/- ============================================
   Claim C1: the first-view gate
   ============================================ -/

theorem recordView_views_nocap (ch : Channels) (t : String) (m : ReqMeta) (now : Nat)
    (db : DB) (h : db.views.length < MAX_VIEWS) :
    (recordView ch t m now db).db.views = db.views ++ [mkView t m now db.views.length] := by
  rw [recordView_views]
  unfold capViews
  rw [if_neg]
  rw [List.length_append]
  simp only [List.length_cons, List.length_nil]
  omega

theorem hasView_after_nocap (ch : Channels) (t : String) (m : ReqMeta) (now : Nat)
    (db : DB) (u : String) (h : db.views.length < MAX_VIEWS) :
    hasView (recordView ch t m now db).db u = (hasView db u || (t == u)) := by
  unfold hasView
  rw [recordView_views_nocap ch t m now db h, List.any_append]
  simp [mkView]

theorem firstViewCount_cons (s : RVStep) (tr : List RVStep) (t : String) :
    firstViewCount (s :: tr) t =
      (if (s.tid == t && s.isFirstView) = true then 1 else 0) + firstViewCount tr t := by
  unfold firstViewCount
  rw [List.filter_cons]
  split <;> rename_i h <;> simp [h, Nat.add_comm]

theorem firstViewCount_append (tr1 tr2 : List RVStep) (t : String) :
    firstViewCount (tr1 ++ tr2) t = firstViewCount tr1 t + firstViewCount tr2 t := by
  unfold firstViewCount
  rw [List.filter_append, List.length_append]

theorem runRecord_firstViewCount (ch : Channels) (ops : List RVCall) :
    ∀ db : DB, db.views.length + ops.length ≤ MAX_VIEWS → ∀ t : String,
      firstViewCount (runRecord ch ops db).2 t =
        if t ∈ ops.map RVCall.tid ∧ hasView db t = false then 1 else 0 := by
  induction ops with
  | nil =>
      intro db h t
      simp [runRecord, firstViewCount]
  | cons c cs ih =>
      intro db h t
      rw [runRecord_cons, firstViewCount_cons]
      have hlt : db.views.length < MAX_VIEWS := by
        simp only [List.length_cons] at h
        omega
      have hlen : (recordView ch c.tid c.meta c.now db).db.views.length =
          db.views.length + 1 := by
        rw [recordView_views_nocap ch c.tid c.meta c.now db hlt]
        simp
      have ihc := ih (recordView ch c.tid c.meta c.now db).db
        (by rw [hlen]; simp only [List.length_cons] at h; omega) t
      rw [ihc, hasView_after_nocap ch c.tid c.meta c.now db t hlt]
      simp only [recordView_isFirstView, List.map_cons, List.mem_cons]
      by_cases hct : c.tid = t
      · subst hct
        by_cases hv : hasView db c.tid = true
        · simp [hv]
        · simp only [Bool.not_eq_true] at hv
          simp [hv]
      · have hct' : (c.tid == t) = false := by simpa using hct
        simp [hct', Ne.symm hct]

/-- Claim C1 (amended): `recordView(t, …)` returns `isFirstView = true`
exactly when no View for `t` is currently stored — so the first call returns
true and later calls return false only as long as a View for `t` survives the
10,000-entry global cap. Consequently, in any run of at most 10,000 total
views from the empty store, notification dispatch fires exactly once per
distinct trackingId; once every View for `t` has been evicted by the cap, a
later call for `t` returns true again and re-dispatches. -/
theorem first_view_gate_amended (ch : Channels) (t : String) (m : ReqMeta) (now : Nat)
    (db : DB) (ops : List RVCall) (hops : ops.length ≤ MAX_VIEWS) :
    (recordView ch t m now db).isFirstView = !(hasView db t) ∧
    firstViewCount (runRecord ch ops emptyDB).2 t =
      (if t ∈ ops.map RVCall.tid then 1 else 0) := by
  refine ⟨recordView_isFirstView ch t m now db, ?_⟩
  rw [runRecord_firstViewCount ch ops emptyDB (by simpa [emptyDB] using hops) t]
  simp [hasView, emptyDB]

/-- Witness for C1 (amended) on a three-call run. -/
theorem first_view_gate_amended_witness :
    ([callA, callB, callA].length ≤ MAX_VIEWS) ∧
    ((recordView noChannels "a" meta0 0 emptyDB).isFirstView = !(hasView emptyDB "a") ∧
     firstViewCount (runRecord noChannels [callA, callB, callA] emptyDB).2 "a" =
       (if "a" ∈ [callA, callB, callA].map RVCall.tid then 1 else 0)) :=
  ⟨by norm_num [MAX_VIEWS],
   first_view_gate_amended noChannels "a" meta0 0 emptyDB [callA, callB, callA]
     (by norm_num [MAX_VIEWS])⟩

theorem runRecord_append (ch : Channels) (xs ys : List RVCall) :
    ∀ db : DB, runRecord ch (xs ++ ys) db =
      ((runRecord ch ys (runRecord ch xs db).1).1,
       (runRecord ch xs db).2 ++ (runRecord ch ys (runRecord ch xs db).1).2) := by
  induction xs with
  | nil => intro db; rfl
  | cons c cs ih =>
      intro db
      simp only [List.cons_append, runRecord_cons, ih]

theorem firstViewCount_no_tid (ch : Channels) (ops : List RVCall) :
    ∀ (db : DB) (t : String), (∀ c ∈ ops, c.tid ≠ t) →
      firstViewCount (runRecord ch ops db).2 t = 0 := by
  induction ops with
  | nil => intro db t _; rfl
  | cons c cs ih =>
      intro db t h
      rw [runRecord_cons, firstViewCount_cons]
      have hc : (c.tid == t) = false := by simpa using h c (by simp)
      rw [ih _ t (fun d hd => h d (by simp [hd]))]
      simp [hc]

theorem runRecord_inserted_tids (ch : Channels) (ops : List RVCall) :
    ∀ db : DB, ∀ v ∈ insertedViews (runRecord ch ops db).2,
      ∃ c ∈ ops, v.tracking_id = c.tid := by
  induction ops with
  | nil => intro db v hv; simp [runRecord, insertedViews] at hv
  | cons c cs ih =>
      intro db v hv
      rw [runRecord_cons] at hv
      simp only [insertedViews, List.map_cons, List.mem_cons] at hv
      rcases hv with hv | hv
      · exact ⟨c, by simp, by rw [hv, recordView_view]; rfl⟩
      · obtain ⟨d, hd, htid⟩ := ih _ v (by simpa [insertedViews] using hv)
        exact ⟨d, by simp [hd], htid⟩

theorem replicateB_inserted_all_b (n : Nat) (db : DB) (v : View)
    (hv : v ∈ insertedViews (runRecord noChannels (List.replicate n callB) db).2) :
    v.tracking_id = "b" := by
  obtain ⟨c, hc, htid⟩ := runRecord_inserted_tids noChannels (List.replicate n callB) db v hv
  rw [htid, List.eq_of_mem_replicate hc]
  rfl

theorem cex_db1_views : (recordView noChannels "a" meta0 0 emptyDB).db.views =
    [mkView "a" meta0 0 0] := by
  rw [recordView_views]
  unfold capViews
  rw [if_neg (by simp [emptyDB, MAX_VIEWS])]
  simp [emptyDB]

theorem cex_insB_length : (insertedViews (runRecord noChannels
    (List.replicate MAX_VIEWS callB)
    (recordView noChannels "a" meta0 0 emptyDB).db).2).length = MAX_VIEWS := by
  unfold insertedViews
  rw [List.length_map, runRecord_trace_length, List.length_replicate]

theorem cex_mid_views : (runRecord noChannels (List.replicate MAX_VIEWS callB)
    (recordView noChannels "a" meta0 0 emptyDB).db).1.views =
    insertedViews (runRecord noChannels (List.replicate MAX_VIEWS callB)
      (recordView noChannels "a" meta0 0 emptyDB).db).2 := by
  rw [runRecord_views noChannels _ _ (by rw [cex_db1_views]; simp [MAX_VIEWS])]
  rw [cex_db1_views]
  unfold lastN
  rw [List.length_append, cex_insB_length]
  simp only [List.length_cons, List.length_nil]
  have h1 : 1 + MAX_VIEWS - MAX_VIEWS = 1 := by omega
  rw [h1]
  rfl

theorem cex_mid_noA : hasView (runRecord noChannels (List.replicate MAX_VIEWS callB)
    (recordView noChannels "a" meta0 0 emptyDB).db).1 "a" = false := by
  unfold hasView
  rw [cex_mid_views, List.any_eq_false]
  intro v hv
  rw [replicateB_inserted_all_b MAX_VIEWS _ v hv]
  decide

theorem cex_last_call_count : firstViewCount (runRecord noChannels [callA]
    (runRecord noChannels (List.replicate MAX_VIEWS callB)
      (recordView noChannels "a" meta0 0 emptyDB).db).1).2 "a" = 1 := by
  rw [runRecord_cons, firstViewCount_cons]
  have hfv2 : (recordView noChannels callA.tid callA.meta callA.now
      ((runRecord noChannels (List.replicate MAX_VIEWS callB)
        (recordView noChannels "a" meta0 0 emptyDB).db).1)).isFirstView = true := by
    rw [recordView_isFirstView]
    show (!hasView _ "a") = true
    rw [cex_mid_noA]
    rfl
  rw [hfv2]
  rfl

theorem firstViewCount_run_cons (ch : Channels) (c : RVCall) (cs : List RVCall)
    (db : DB) (t : String) :
    firstViewCount (runRecord ch (c :: cs) db).2 t =
      (if (c.tid == t && (recordView ch c.tid c.meta c.now db).isFirstView) = true
        then 1 else 0) +
      firstViewCount (runRecord ch cs (recordView ch c.tid c.meta c.now db).db).2 t := by
  rw [runRecord_cons, firstViewCount_cons]

theorem runRecord_fst_cons (ch : Channels) (c : RVCall) (cs : List RVCall) (db : DB) :
    (runRecord ch (c :: cs) db).1 =
      (runRecord ch cs (recordView ch c.tid c.meta c.now db).db).1 := rfl

theorem firstViewCount_run_append (ch : Channels) (xs ys : List RVCall) :
    ∀ (db : DB) (t : String),
      firstViewCount (runRecord ch (xs ++ ys) db).2 t =
        firstViewCount (runRecord ch xs db).2 t +
        firstViewCount (runRecord ch ys (runRecord ch xs db).1).2 t := by
  induction xs with
  | nil =>
      intro db t
      simp [List.nil_append, runRecord, firstViewCount]
  | cons c cs ih =>
      intro db t
      rw [List.cons_append, firstViewCount_run_cons, firstViewCount_run_cons, ih,
        runRecord_fst_cons]
      omega

theorem cex_total_count : firstViewCount (runRecord noChannels
    (callA :: (List.replicate MAX_VIEWS callB ++ [callA])) emptyDB).2 "a" = 2 := by
  rw [firstViewCount_run_cons]
  simp only [show callA.tid = "a" from rfl, show callA.meta = meta0 from rfl,
    show callA.now = 0 from rfl]
  rw [firstViewCount_run_append]
  rw [firstViewCount_no_tid noChannels (List.replicate MAX_VIEWS callB) _ "a"
    (fun c hc => by rw [List.eq_of_mem_replicate hc]; decide)]
  have h1 : (recordView noChannels "a" meta0 0 emptyDB).isFirstView = true := by
    rw [recordView_isFirstView]
    rfl
  rw [h1, cex_last_call_count]
  rfl

/-- Claim C1 is refuted on the code: in the run "one view of a, then 10,000
views of b, then a again", the cap evicts the only View for "a", so BOTH
calls for "a" come back with `isFirstView = true` and notification dispatch
fires twice for the single trackingId "a". -/
theorem first_view_retriggers_after_eviction :
    firstViewCount (runRecord noChannels cexFirstViewOps emptyDB).2 "a" = 2 :=
  cex_total_count

/- ============================================
   Claim C2: view sequence ids
   ============================================ -/

theorem runRecord_inserted_ids (ch : Channels) (ops : List RVCall) :
    ∀ db : DB, db.views.length + ops.length ≤ MAX_VIEWS →
      (insertedViews (runRecord ch ops db).2).map View.id =
        List.range' (db.views.length + 1) ops.length := by
  induction ops with
  | nil => intro db h; rfl
  | cons c cs ih =>
      intro db h
      rw [runRecord_cons]
      simp only [insertedViews, List.map_cons]
      have hlt : db.views.length < MAX_VIEWS := by
        simp only [List.length_cons] at h
        omega
      have hlen : (recordView ch c.tid c.meta c.now db).db.views.length =
          db.views.length + 1 := by
        rw [recordView_views_nocap ch c.tid c.meta c.now db hlt]
        simp
      have ihc := ih (recordView ch c.tid c.meta c.now db).db
        (by rw [hlen]; simp only [List.length_cons] at h; omega)
      unfold insertedViews at ihc
      rw [recordView_view, ihc, hlen, List.length_cons, List.range'_succ]
      rfl

/-- Claim C2 (amended): view sequence ids are assigned as
`views.length + 1`, so they are strictly increasing over any run of at most
10,000 total views from the empty store; but once the store sits at the
10,000-entry cap, every further view is assigned id 10,001, so across the
whole lifetime ids are not strictly increasing. -/
theorem view_ids_amended (ch : Channels) (ops : List RVCall) (t : String) (m : ReqMeta)
    (now : Nat) (db : DB) (hops : ops.length ≤ MAX_VIEWS)
    (hcap : db.views.length = MAX_VIEWS) :
    ((insertedViews (runRecord ch ops emptyDB).2).map View.id).Pairwise (· < ·) ∧
    (recordView ch t m now db).view.id = MAX_VIEWS + 1 := by
  constructor
  · rw [runRecord_inserted_ids ch ops emptyDB (by simpa [emptyDB] using hops)]
    exact List.pairwise_lt_range' _ _
  · rw [recordView_view]
    simp [mkView, hcap]

/-- Witness for C2 (amended) on a two-call run and a store at the cap. -/
theorem view_ids_amended_witness :
    ([callA, callB].length ≤ MAX_VIEWS) ∧ dbFull.views.length = MAX_VIEWS ∧
    (((insertedViews (runRecord noChannels [callA, callB] emptyDB).2).map
        View.id).Pairwise (· < ·) ∧
     (recordView noChannels "e" meta0 5 dbFull).view.id = MAX_VIEWS + 1) :=
  ⟨by norm_num [MAX_VIEWS], by simp [dbFull],
   view_ids_amended noChannels [callA, callB] "e" meta0 5 dbFull
     (by norm_num [MAX_VIEWS]) (by simp [dbFull])⟩

theorem insertedViews_run_append (ch : Channels) (xs ys : List RVCall) (db : DB) :
    insertedViews (runRecord ch (xs ++ ys) db).2 =
      insertedViews (runRecord ch xs db).2 ++
      insertedViews (runRecord ch ys (runRecord ch xs db).1).2 := by
  rw [runRecord_append]
  unfold insertedViews
  rw [List.map_append]

theorem insIds_run_append (ch : Channels) (xs ys : List RVCall) (db : DB) :
    (insertedViews (runRecord ch (xs ++ ys) db).2).map View.id =
      (insertedViews (runRecord ch xs db).2).map View.id ++
      (insertedViews (runRecord ch ys (runRecord ch xs db).1).2).map View.id := by
  rw [insertedViews_run_append, List.map_append]

theorem insIds_run_cons (ch : Channels) (c : RVCall) (cs : List RVCall) (db : DB) :
    (insertedViews (runRecord ch (c :: cs) db).2).map View.id =
      (db.views.length + 1) ::
        (insertedViews (runRecord ch cs
          (recordView ch c.tid c.meta c.now db).db).2).map View.id := by
  rw [runRecord_cons]
  simp only [insertedViews, List.map_cons, recordView_view]
  rfl

theorem insIds_run_nil (ch : Channels) (db : DB) :
    (insertedViews (runRecord ch ([] : List RVCall) db).2).map View.id = [] := rfl

theorem recordView_views_length_cap (ch : Channels) (t : String) (m : ReqMeta)
    (now : Nat) (db : DB) (h : db.views.length = MAX_VIEWS) :
    (recordView ch t m now db).db.views.length = MAX_VIEWS := by
  rw [recordView_views, capViews_eq_lastN]
  unfold lastN
  rw [List.length_drop, List.length_append, h]
  simp only [List.length_cons, List.length_nil]
  omega

theorem cex2_mid_views_length : (runRecord noChannels (List.replicate MAX_VIEWS callB)
    emptyDB).1.views.length = MAX_VIEWS := by
  rw [runRecord_views noChannels _ emptyDB (by simp [emptyDB])]
  unfold lastN
  rw [List.length_drop, List.length_append]
  have h1 : (insertedViews (runRecord noChannels (List.replicate MAX_VIEWS callB)
      emptyDB).2).length = MAX_VIEWS := by
    unfold insertedViews
    rw [List.length_map, runRecord_trace_length, List.length_replicate]
  rw [h1, show emptyDB.views.length = 0 from rfl]
  omega

theorem cex_id_list : (insertedViews (runRecord noChannels cexIdOps emptyDB).2).map
    View.id = List.range' 1 MAX_VIEWS ++ [MAX_VIEWS + 1, MAX_VIEWS + 1] := by
  rw [show cexIdOps = List.replicate MAX_VIEWS callB ++ [callC, callD] from rfl]
  rw [insIds_run_append]
  rw [runRecord_inserted_ids noChannels (List.replicate MAX_VIEWS callB) emptyDB
    (by simp [emptyDB])]
  rw [insIds_run_cons]
  simp only [show callC.tid = "c" from rfl, show callC.meta = meta0 from rfl,
    show callC.now = 0 from rfl]
  rw [insIds_run_cons]
  simp only [show callD.tid = "d" from rfl, show callD.meta = meta0 from rfl,
    show callD.now = 0 from rfl]
  rw [insIds_run_nil]
  rw [cex2_mid_views_length]
  rw [recordView_views_length_cap noChannels "c" meta0 0 _ cex2_mid_views_length]
  rw [show emptyDB.views.length = 0 from rfl, List.length_replicate]

/-- Claim C2 is refuted on the code: ids are `views.length + 1`, so once the
cap has been reached every new view receives id 10,001. In the run "10,000
views of b, then one view of c, then one view of d", the id sequence assigned
in insertion order is 1, …, 10,000, 10,001, 10,001: the c-View is appended
strictly before the d-View yet their ids are equal, so ids are not strictly
increasing over the lifetime of the store. -/
theorem view_ids_repeat_after_cap :
    (insertedViews (runRecord noChannels cexIdOps emptyDB).2).map View.id =
      List.range' 1 MAX_VIEWS ++ [MAX_VIEWS + 1, MAX_VIEWS + 1] ∧
    ¬ ((insertedViews (runRecord noChannels cexIdOps emptyDB).2).map
        View.id).Pairwise (· < ·) := by
  refine ⟨cex_id_list, ?_⟩
  intro hp
  rw [cex_id_list] at hp
  have hsub : [MAX_VIEWS + 1, MAX_VIEWS + 1].Sublist
      (List.range' 1 MAX_VIEWS ++ [MAX_VIEWS + 1, MAX_VIEWS + 1]) :=
    List.sublist_append_right _ _
  have hpair := hp.sublist hsub
  simp at hpair

/- ============================================
   Claim C8: the view-stats projection
   ============================================ -/

theorem sorted_head_max (l : List View) (h : View) (hs : List.Sorted viewLe l)
    (hh : l.head? = some h) : ∀ v ∈ l, v.viewed_at ≤ h.viewed_at := by
  cases l with
  | nil => cases hh
  | cons a tl =>
      injection hh with hh
      subst hh
      intro v hv
      rcases List.mem_cons.mp hv with rfl | hv
      · exact Nat.le_refl _
      · exact (List.sorted_cons.mp hs).1 v hv

/-- Claim C8: the view-stats query reports `viewCount` equal to the number of
stored Views with the given trackingId; `lastViewedAt` is the most recent
`viewed_at` among them and is null exactly when there are none; the entries
list is exactly the 50-entry prefix of a descending sort of ALL the stored
Views with that trackingId (so it holds precisely the `min 50 count` most
recent entries, sorted descending — never fewer, and never older ones in
place of newer ones); and every entry carries the raw user agent together
with an IP field that is the 8-character truncation of the one-way hash of
the stored address — never the raw `ip_address` value itself. -/
theorem getViewStats_correct (hash : String → String) (t : String) (db : DB) :
    (getViewStats hash t db).viewCount =
      (db.views.filter (fun v => v.tracking_id == t)).length ∧
    ((getViewStats hash t db).lastViewedAt = none ↔
      db.views.filter (fun v => v.tracking_id == t) = []) ∧
    (∀ m, (getViewStats hash t db).lastViewedAt = some m →
      (∃ v ∈ db.views, v.tracking_id = t ∧ v.viewed_at = m) ∧
      ∀ v ∈ db.views, v.tracking_id = t → v.viewed_at ≤ m) ∧
    (getViewStats hash t db).views.length ≤ 50 ∧
    ((getViewStats hash t db).views.map ViewStatsEntry.timestamp).Pairwise
      (fun a b => b ≤ a) ∧
    (∀ e ∈ (getViewStats hash t db).views, ∃ v ∈ db.views, v.tracking_id = t ∧
      e.timestamp = v.viewed_at ∧ e.userAgent = v.user_agent ∧
      e.ip_hash = ipHashField hash v.ip_address) ∧
    (getViewStats hash t db).views.length =
      min 50 (db.views.filter (fun v => v.tracking_id == t)).length ∧
    (∃ S : List View, S.Perm (db.views.filter (fun v => v.tracking_id == t)) ∧
      List.Sorted viewLe S ∧
      (getViewStats hash t db).views = (S.take 50).map (fun v =>
        { timestamp := v.viewed_at, ip_hash := ipHashField hash v.ip_address,
          userAgent := v.user_agent })) := by
  have hperm := List.perm_insertionSort viewLe
    (db.views.filter (fun v => v.tracking_id == t))
  have hsorted := List.sorted_insertionSort viewLe
    (db.views.filter (fun v => v.tracking_id == t))
  simp only [getViewStats]
  refine ⟨?_, ?_, ?_, ?_, ?_, ?_, ?_, ?_⟩
  · trivial
  · constructor
    · intro h
      have hS := List.head?_eq_none_iff.mp (Option.map_eq_none'.mp h)
      rw [hS] at hperm
      exact (List.Perm.nil_eq hperm).symm
    · intro h
      rw [h]
      rfl
  · intro m hm
    obtain ⟨h, hh, hm⟩ := Option.map_eq_some'.mp hm
    have hmemS : h ∈ (db.views.filter
        (fun v => v.tracking_id == t)).insertionSort viewLe :=
      List.mem_of_mem_head? (by rw [hh]; rfl)
    have hmemF := hperm.mem_iff.mp hmemS
    have hf := List.mem_filter.mp hmemF
    constructor
    · exact ⟨h, hf.1, by simpa using hf.2, hm⟩
    · intro v hv htid
      have hvF : v ∈ db.views.filter (fun v => v.tracking_id == t) :=
        List.mem_filter.mpr ⟨hv, by simp [htid]⟩
      have hvS := hperm.mem_iff.mpr hvF
      rw [← hm]
      exact sorted_head_max _ h hsorted hh v hvS
  · rw [List.length_map]
    exact List.length_take_le _ _
  · rw [List.map_map]
    refine List.Pairwise.map _ (fun a b hab => hab) ?_
    exact (hsorted.sublist (List.take_sublist _ _))
  · intro e he
    obtain ⟨v, hv, he⟩ := List.mem_map.mp he
    have hvS := List.mem_of_mem_take hv
    have hf := List.mem_filter.mp (hperm.mem_iff.mp hvS)
    refine ⟨v, hf.1, by simpa using hf.2, ?_, ?_, ?_⟩ <;> rw [← he]
  · rw [List.length_map, List.length_take, hperm.length_eq]
  · exact ⟨_, hperm, hsorted, rfl⟩

/-- Witness for C8 on a concrete store with three views of "x" and one of
"y", with the identity as the hash port. -/
theorem getViewStats_correct_witness :
    (getViewStats (fun s => s) "x"
        ⟨[], [⟨1, "x", 5, some "1.2.3.4", some "UA", none⟩,
              ⟨2, "y", 9, some "1.2.3.4", none, none⟩,
              ⟨3, "x", 7, none, some "UA2", none⟩], [], [], none⟩).viewCount =
      ((⟨[], [⟨1, "x", 5, some "1.2.3.4", some "UA", none⟩,
              ⟨2, "y", 9, some "1.2.3.4", none, none⟩,
              ⟨3, "x", 7, none, some "UA2", none⟩], [], [], none⟩ : DB).views.filter
        (fun v => v.tracking_id == "x")).length ∧ True :=
  ⟨(getViewStats_correct (fun s => s) "x"
      ⟨[], [⟨1, "x", 5, some "1.2.3.4", some "UA", none⟩,
            ⟨2, "y", 9, some "1.2.3.4", none, none⟩,
            ⟨3, "x", 7, none, some "UA2", none⟩], [], [], none⟩).1, trivial⟩

/- ============================================
   Claim C9: every View references an existing Estimate
   ============================================ -/

theorem lookup_append (es es₂ : List (String × Estimate)) (u : String) :
    (es ++ es₂).lookup u = ((es.lookup u).or (es₂.lookup u)) := by
  induction es with
  | nil => simp [List.lookup]
  | cons p ps ih =>
      cases p with
      | mk k v => by_cases h : (u == k) <;> simp [List.lookup, h, ih]

theorem ensureEstimate_has (t : String) (now : Nat) (db : DB)
    (hp : protoKeys.contains t = false) :
    (((ensureEstimate t now db).estimates).lookup t).isSome = true := by
  unfold ensureEstimate
  split
  · rename_i h
    unfold estimatesTruthy at h
    rw [hp, Bool.or_false] at h
    exact h
  · rw [lookup_append]
    rename_i h
    unfold estimatesTruthy at h
    rw [hp, Bool.or_false] at h
    have hnone : db.estimates.lookup t = none := by
      cases hl : db.estimates.lookup t with
      | none => rfl
      | some x => rw [hl] at h; simp at h
    rw [hnone]
    simp [List.lookup]

theorem ensureEstimate_lookup_mono (t u : String) (now : Nat) (db : DB)
    (h : (db.estimates.lookup u).isSome = true) :
    (((ensureEstimate t now db).estimates).lookup u).isSome = true := by
  unfold ensureEstimate
  split
  · exact h
  · rw [lookup_append, Option.isSome_or, h, Bool.true_or]

theorem lookup_map_replace (es : List (String × Estimate)) (t u : String) (e : Estimate) :
    ((es.map (fun p => if p.1 == t then (t, e) else p)).lookup u).isSome =
      (es.lookup u).isSome := by
  induction es with
  | nil => rfl
  | cons p ps ih =>
      cases p with
      | mk k v =>
          dsimp only [List.map_cons]
          by_cases hk : (k == t) = true
          · rw [if_pos hk]
            have hkt : k = t := by simpa using hk
            subst hkt
            by_cases hu : (u == k) = true
            · simp only [List.lookup, hu]
              rfl
            · have hu' : (u == k) = false := by simpa using hu
              simp only [List.lookup, hu']
              exact ih
          · rw [if_neg hk]
            by_cases hu : (u == k) = true
            · simp only [List.lookup, hu]
            · have hu' : (u == k) = false := by simpa using hu
              simp only [List.lookup, hu']
              exact ih

theorem setEstimate_lookup_mono (es : List (String × Estimate)) (t u : String)
    (e : Estimate) (h : (es.lookup u).isSome = true) :
    ((setEstimate es t e).lookup u).isSome = true := by
  unfold setEstimate
  split
  · exact h
  · split
    · rw [lookup_map_replace]
      exact h
    · rw [lookup_append, Option.isSome_or, h, Bool.true_or]

theorem recordView_estimates (ch : Channels) (t : String) (m : ReqMeta) (now : Nat)
    (db : DB) :
    (recordView ch t m now db).db.estimates = (ensureEstimate t now db).estimates := by
  simp only [recordView]
  split <;> simp [storeInAppNotification]

theorem recordView_views_subset (ch : Channels) (t : String) (m : ReqMeta) (now : Nat)
    (db : DB) (v : View) (hv : v ∈ (recordView ch t m now db).db.views) :
    v ∈ db.views ∨ v = mkView t m now db.views.length := by
  rw [recordView_views] at hv
  unfold capViews at hv
  have hv' : v ∈ db.views ++ [mkView t m now db.views.length] := by
    split at hv
    · exact List.mem_of_mem_drop hv
    · exact hv
  rcases List.mem_append.mp hv' with h | h
  · exact Or.inl h
  · exact Or.inr (by simpa using h)

theorem registerDevice_views (b : DeviceBody) (now : Nat) (db : DB) :
    (registerDevice b now db).1.views = db.views := by
  unfold registerDevice; split <;> rfl

theorem registerDevice_estimates (b : DeviceBody) (now : Nat) (db : DB) :
    (registerDevice b now db).1.estimates = db.estimates := by
  unfold registerDevice; split <;> rfl

theorem registerContractor_views (b : ContractorBody) (now : Nat) (db : DB) :
    (registerContractor b now db).1.views = db.views := by
  unfold registerContractor; split <;> rfl

theorem registerContractor_estimates (b : ContractorBody) (now : Nat) (db : DB) :
    (registerContractor b now db).1.estimates = db.estimates := by
  unfold registerContractor; split <;> rfl

theorem markRead_views (nid : String) (db : DB) :
    (markNotificationRead nid db).1.views = db.views := by
  unfold markNotificationRead
  cases db.notifications.find? (fun n => n.id == nid) <;> rfl

theorem markRead_estimates (nid : String) (db : DB) :
    (markNotificationRead nid db).1.estimates = db.estimates := by
  unfold markNotificationRead
  cases db.notifications.find? (fun n => n.id == nid) <;> rfl

theorem applyOp_preserves_refs (ch : Channels) (db : DB) (op : Op)
    (hord : ordinaryOp op = true)
    (hinv : ∀ v ∈ db.views, (db.estimates.lookup v.tracking_id).isSome = true) :
    ∀ v ∈ (applyOp ch db op).views,
      ((applyOp ch db op).estimates.lookup v.tracking_id).isSome = true := by
  cases op with
  | record t m now =>
      intro v hv
      simp only [applyOp] at hv ⊢
      rw [recordView_estimates]
      rcases recordView_views_subset ch t m now db v hv with h | h
      · exact ensureEstimate_lookup_mono t _ now db (hinv v h)
      · rw [h]
        exact ensureEstimate_has t now db
          (by simpa [ordinaryOp] using hord)
  | regEstimate t b now =>
      intro v hv
      simp only [applyOp, registerEstimate] at hv ⊢
      exact setEstimate_lookup_mono _ _ _ _ (hinv v hv)
  | regDevice b now =>
      intro v hv
      simp only [applyOp] at hv ⊢
      rw [registerDevice_estimates]
      rw [registerDevice_views] at hv
      exact hinv v hv
  | regContractor b now =>
      intro v hv
      simp only [applyOp] at hv ⊢
      rw [registerContractor_estimates]
      rw [registerContractor_views] at hv
      exact hinv v hv
  | markRead nid =>
      intro v hv
      simp only [applyOp] at hv ⊢
      rw [markRead_estimates]
      rw [markRead_views] at hv
      exact hinv v hv
  | markAll =>
      intro v hv
      simp only [applyOp, markAllRead] at hv ⊢
      exact hinv v hv

theorem runOps_inv_aux (ch : Channels) (ops : List Op) :
    ∀ db : DB, (∀ o ∈ ops, ordinaryOp o = true) →
      (∀ v ∈ db.views, (db.estimates.lookup v.tracking_id).isSome = true) →
      ∀ v ∈ (ops.foldl (applyOp ch) db).views,
        ((ops.foldl (applyOp ch) db).estimates.lookup v.tracking_id).isSome = true := by
  induction ops with
  | nil => intro db _ h; exact h
  | cons op ops ih =>
      intro db hord h
      exact ih _ (fun o ho => hord o (by simp [ho]))
        (applyOp_preserves_refs ch db op (hord op (by simp)) h)

/-- Claim C9 is refuted on the code: `!db.estimates[trackingId]`
(server.js:646) is a JavaScript property read that consults the prototype
chain, so for the reachable request `GET /view/constructor` the inherited
`Object.prototype.constructor` is truthy, the Estimate stub is skipped, and
the View is stored anyway: a View whose trackingId resolves to no Estimate
in the mapping. -/
theorem orphan_view_for_prototype_key :
    mkView "constructor" meta0 0 0 ∈
      (runOps noChannels [Op.record "constructor" meta0 0]).views ∧
    ((runOps noChannels [Op.record "constructor" meta0 0]).estimates.lookup
      "constructor").isSome = false := by
  decide

/-- Claim C9 (amended): in every state reachable from the empty store by a
run of operations whose trackingIds all avoid the `Object.prototype` property
names ("constructor", "toString", "__proto__", …), every stored View
references an Estimate present in the estimates mapping — the stub or
pre-existing Estimate is in place before the View is appended — and no
operation ever removes an Estimate (the latter unconditionally). For a
prototype-inherited name the guard `!db.estimates[trackingId]` is falsy, the
stub is skipped, and the stored View is orphaned. -/
theorem views_reference_estimates_amended (ch : Channels) (ops : List Op) (db : DB)
    (op : Op) (t : String) (hord : ∀ o ∈ ops, ordinaryOp o = true)
    (hpre : (db.estimates.lookup t).isSome = true) :
    (∀ v ∈ (runOps ch ops).views,
      (((runOps ch ops).estimates).lookup v.tracking_id).isSome = true) ∧
    (((applyOp ch db op).estimates).lookup t).isSome = true := by
  constructor
  · exact runOps_inv_aux ch ops emptyDB hord (by intro v hv; cases hv)
  · cases op with
    | record t' m now =>
        simp only [applyOp]
        rw [recordView_estimates]
        exact ensureEstimate_lookup_mono t' t now db hpre
    | regEstimate t' b now =>
        simp only [applyOp, registerEstimate]
        exact setEstimate_lookup_mono _ _ _ _ hpre
    | regDevice b now => rw [applyOp, registerDevice_estimates]; exact hpre
    | regContractor b now => rw [applyOp, registerContractor_estimates]; exact hpre
    | markRead nid => rw [applyOp, markRead_estimates]; exact hpre
    | markAll => simp only [applyOp, markAllRead]; exact hpre

/-- Witness for the amended C9 on the one-operation run "record a view of a". -/
theorem views_reference_estimates_amended_witness :
    (∀ o ∈ [Op.record "a" meta0 0], ordinaryOp o = true) ∧
    ((⟨[("z", stubEstimate "z" 4)], [], [], [], none⟩ : DB).estimates.lookup "z").isSome
      = true ∧
    ((∀ v ∈ (runOps noChannels [Op.record "a" meta0 0]).views,
       (((runOps noChannels [Op.record "a" meta0 0]).estimates).lookup
         v.tracking_id).isSome = true) ∧
     (((applyOp noChannels ⟨[("z", stubEstimate "z" 4)], [], [], [], none⟩
         (Op.record "a" meta0 0)).estimates).lookup "z").isSome = true) :=
  ⟨by decide, by decide,
   views_reference_estimates_amended noChannels [Op.record "a" meta0 0]
     ⟨[("z", stubEstimate "z" 4)], [], [], [], none⟩ (Op.record "a" meta0 0) "z"
     (by decide) (by decide)⟩

end EstimateTracking
